import Mathlib

/-!
Shallow embedding of the livekit-assistant orchestration script
(`assistant.py`) together with theorems about its event handlers, the
response coordinator `_answer`, the media-observer loop, and the startup
credential/token path.

External collaborators (LLM, TTS, STT, VAD, room transport) are opaque;
their success or failure is an explicit parameter where a claim depends
on it. Python truthiness of a string is modelled as `≠ ""`, of an
optional value as `Option.isSome`, and an `asyncio.Future` that no code
ever completes is modelled as the outcome `neverResolves`.
-/

namespace Assistant

/-! ## Data model -/

/-- Kind of a remote media track; in the source the video case is the
`isinstance(track, rtc.RemoteVideoTrack)` check. -/
inductive TrackKind
  | audio
  | video
deriving DecidableEq, Repr

/-- A remote track (`rtc.RemoteVideoTrack` / audio) as published in the room. -/
structure RemoteTrack where
  sid : String
  kind : TrackKind
deriving DecidableEq, Repr

/-- A track publication; `track = none` models
`track_publication.track is None` (published but not available). -/
structure TrackPublication where
  track : Option RemoteTrack
deriving DecidableEq, Repr

/-- A remote participant with its publications, in iteration order of
`participant.track_publications.items()`. -/
structure RemoteParticipant where
  track_publications : List TrackPublication
deriving DecidableEq, Repr

/-- Room connection state; the source compares against
`rtc.ConnectionState.CONN_CONNECTED`. -/
inductive ConnectionState
  | connConnected
  | connDisconnected
deriving DecidableEq, Repr

/-- Room snapshot: the remote participants (in iteration order of
`room.remote_participants.items()`) and the connection state. -/
structure Room where
  remote_participants : List RemoteParticipant
  connection_state : ConnectionState
deriving DecidableEq, Repr

/-- A video frame pulled from the video stream (`event.frame`). -/
structure VideoFrame where
  frameId : Nat
deriving DecidableEq, Repr

/-- `ChatImage(image=latest_image)` from `livekit.agents.llm`. -/
structure ChatImage where
  image : VideoFrame
deriving DecidableEq, Repr

/-- One element of a chat message content list: `list[str | ChatImage]`. -/
inductive ContentItem
  | text (s : String)
  | image (img : ChatImage)
deriving DecidableEq, Repr

/-- `ChatMessage(role=..., content=...)` from `livekit.agents.llm`. -/
structure ChatMessage where
  role : String
  content : List ContentItem
deriving DecidableEq, Repr

/-- `ChatContext(messages=[...])`: the mutable conversation state. -/
structure ChatContext where
  messages : List ChatMessage
deriving DecidableEq, Repr

/-- The initial conversation state built in `entrypoint`: a single
system-prompt message. -/
def chat_context : ChatContext :=
  ⟨[{ role := "system",
      content := [ContentItem.text
        ("Il tuo nome è Alloy. Sei un bot divertente e spiritoso. La tua interfaccia con gli utenti sarà vocale e visiva."
          ++ "Rispondi con risposte brevi e concise. Evita di usare punteggiatura impronunciabile o emoji.")] }]⟩

/-! ## Event handlers

Each handler is modelled as a function from the event payload to the
list of `respond` (`_answer`) invocations it issues via
`asyncio.create_task`. -/

/-- One `_answer(text, use_image=...)` task created by a handler. -/
structure RespondCall where
  text : String
  use_image : Bool
deriving DecidableEq, Repr

/-- `on_message_received`: `if msg.message:` (Python string truthiness,
i.e. the text is non-empty) spawns one `_answer(msg.message, use_image=False)`. -/
def on_message_received (message : String) : List RespondCall :=
  if message ≠ "" then [{ text := message, use_image := false }] else []

/-- The arguments dict of a finished function call (`call_info.arguments`). -/
structure FunctionCallInfo where
  arguments : List (String × String)
deriving DecidableEq, Repr

/-- `agents.llm.CalledFunction`, restricted to the field the handler reads. -/
structure CalledFunction where
  call_info : FunctionCallInfo
deriving DecidableEq, Repr

/-- Python `dict.get(key)`: the value at the key, or `none`. -/
def dictGet (d : List (String × String)) (key : String) : Option String :=
  (d.find? (fun kv => kv.1 == key)).map (fun kv => kv.2)

/-- `on_function_calls_finished`: empty batches return immediately; otherwise
`called_functions[0].call_info.arguments.get("user_msg")` is read and, when
truthy (present and non-empty), one `_answer(user_msg, use_image=True)` task
is spawned. Remaining calls of the batch are never inspected. -/
def on_function_calls_finished (called_functions : List CalledFunction) : List RespondCall :=
  match called_functions with
  | [] => []
  | first :: _ =>
    match dictGet first.call_info.arguments "user_msg" with
    | none => []
    | some user_msg =>
        if user_msg ≠ "" then [{ text := user_msg, use_image := true }] else []

/-! ## Response coordinator `_answer` -/

/-- Outcome of the external model chat call / speech synthesis performed at
the end of `_answer` (`gpt.chat` and `assistant.say`). The script installs
no exception handler around them. -/
inductive CallOutcome
  | ok
  | chatError
  | sayError
deriving DecidableEq, Repr

/-- The content list built at the top of `_answer`:
`content = [text]; if use_image and latest_image: content.append(ChatImage(image=latest_image))`. -/
def answerContent (text : String) (use_image : Bool) (latest_image : Option VideoFrame) :
    List ContentItem :=
  let content : List ContentItem := [ContentItem.text text]
  match use_image, latest_image with
  | true, some img => content ++ [ContentItem.image { image := img }]
  | _, _ => content

/-- Observable effect of one `_answer` invocation. -/
structure AnswerResult where
  /-- The conversation state passed to `gpt.chat(chat_ctx=chat_context)`;
  the append has already happened at that point. -/
  chatCallInput : ChatContext
  /-- The conversation state when `_answer` finishes (normally or by an
  exception escaping from the chat/say calls). -/
  finalCtx : ChatContext
  /-- Whether an exception escapes `_answer`. -/
  raised : Bool
deriving DecidableEq, Repr

/-- `_answer(text, use_image)`: builds the content, appends one user-role
`ChatMessage` to the conversation state, then calls `gpt.chat` on the
updated state and `assistant.say` on the stream. There is no rollback
path: the appended message stays in place whatever the calls do. -/
def _answer (text : String) (use_image : Bool) (latest_image : Option VideoFrame)
    (ctx : ChatContext) (outcome : CallOutcome) : AnswerResult :=
  let ctx' : ChatContext :=
    ⟨ctx.messages ++ [{ role := "user", content := answerContent text use_image latest_image }]⟩
  { chatCallInput := ctx'
    finalCtx := ctx'
    raised := outcome != CallOutcome.ok }

/-! ## Media observer: `get_video_track` and the outer loop -/

/-- State of the `asyncio.Future` created in `get_video_track`. -/
inductive FutureState
  | pending
  | done (t : RemoteTrack)
deriving DecidableEq, Repr

/-- Outcome of `await get_video_track(room)`. `neverResolves` is the case
where the scan completed without calling `set_result`: nothing else ever
completes the future, so the await suspends forever. `invalidStateError`
is `asyncio.InvalidStateError` raised by `set_result` on a done future. -/
inductive GetVideoTrackResult
  | resolved (t : RemoteTrack)
  | neverResolves
  | invalidStateError
deriving DecidableEq, Repr

/-- The inner-loop condition: `track_publication.track is not None and
isinstance(track_publication.track, rtc.RemoteVideoTrack)`. -/
def isRemoteVideoTrack (pub : TrackPublication) : Bool :=
  match pub.track with
  | some t => t.kind == TrackKind.video
  | none => false

/-- One outer-loop iteration of `get_video_track`'s scan: the inner loop
walks the participant's publications, and at the first matching one calls
`video_track.set_result(...)` and `break`s. The `break` leaves only the
inner loop, so a later participant with a video track reaches `set_result`
again, and `set_result` on an already-done future raises
`asyncio.InvalidStateError` (modelled as `Except.error ()`). -/
def set_result_scan (st : FutureState) (participant : RemoteParticipant) :
    Except Unit FutureState :=
  match (participant.track_publications.find? isRemoteVideoTrack).bind (fun pub => pub.track) with
  | none => Except.ok st
  | some t =>
      match st with
      | FutureState.pending => Except.ok (FutureState.done t)
      | FutureState.done _ => Except.error ()

/-- `get_video_track(room)`: create a pending future, run the synchronous
two-level scan over the current remote participants, then `await` it. -/
def get_video_track (room : Room) : GetVideoTrackResult :=
  match room.remote_participants.foldlM set_result_scan FutureState.pending with
  | Except.error _ => GetVideoTrackResult.invalidStateError
  | Except.ok FutureState.pending => GetVideoTrackResult.neverResolves
  | Except.ok (FutureState.done t) => GetVideoTrackResult.resolved t

/-- `true` when no remote participant currently has a publication passing
the video-track check. -/
def noVideoTrack (room : Room) : Bool :=
  room.remote_participants.all
    (fun p => p.track_publications.all (fun pub => !(isRemoteVideoTrack pub)))

/-- `async for event in rtc.VideoStream(video_track): latest_image = event.frame`:
each frame of the (terminating) sequence overwrites the latest-frame slot. -/
def consumeFrames (frames : List VideoFrame) (latest_image : Option VideoFrame) :
    Option VideoFrame :=
  frames.foldl (fun _ frame => some frame) latest_image

/-- How an execution of the outer `while` loop in `entrypoint` ends (or
fails to end) on a given trace of iterations. -/
inductive LoopOutcome
  | exited
  | suspended
  | crashed
  | outOfTrace
deriving DecidableEq, Repr

/-- The outer media loop of `entrypoint`, run against a trace that gives,
for each iteration, the room snapshot at the `while` test and the frames
the resolved track yields before its stream ends. The loop re-tests the
connection state, awaits `get_video_track`, consumes the frame stream into
the latest-frame slot, and repeats. An unresolved future suspends the loop
forever; `InvalidStateError` propagates out of it. -/
def mediaLoop (latest_image : Option VideoFrame) :
    List (Room × List VideoFrame) → LoopOutcome × Option VideoFrame
  | [] => (LoopOutcome.outOfTrace, latest_image)
  | (room, frames) :: rest =>
      if room.connection_state == ConnectionState.connConnected then
        match get_video_track room with
        | GetVideoTrackResult.resolved _ => mediaLoop (consumeFrames frames latest_image) rest
        | GetVideoTrackResult.neverResolves => (LoopOutcome.suspended, latest_image)
        | GetVideoTrackResult.invalidStateError => (LoopOutcome.crashed, latest_image)
      else (LoopOutcome.exited, latest_image)

/-! ## Startup: credentials and token (`__main__` block) -/

/-- `api.VideoGrants(room_join=True, room="my-room")`. -/
structure VideoGrants where
  room_join : Bool
  room : String
deriving DecidableEq, Repr

/-- The fields the `AccessToken` builder chain sets before `to_jwt()`;
the signed wire format is owned by the auth library and opaque here. -/
structure AccessToken where
  api_key : String
  api_secret : String
  identity : String
  name : String
  grants : VideoGrants
deriving DecidableEq, Repr

/-- The token built in `__main__`:
`api.AccessToken(api_key, api_secret).with_identity("python-bot").with_name("Python Bot").with_grants(api.VideoGrants(room_join=True, room="my-room"))`. -/
def token (api_key api_secret : String) : AccessToken :=
  { api_key := api_key
    api_secret := api_secret
    identity := "python-bot"
    name := "Python Bot"
    grants := { room_join := true, room := "my-room" } }

/-- The `ValueError` message raised when a credential is missing or empty. -/
def credentialsError : String :=
  "LIVEKIT_API_KEY e LIVEKIT_API_SECRET devono essere impostati nelle variabili di ambiente."

/-- Python truthiness of `os.getenv(...)`: `None` and `""` are falsy. -/
def truthy : Option String → Bool
  | none => false
  | some s => !(s == "")

/-- How the `__main__` block ends. `configError` means the `ValueError`
was raised: the token expression was never evaluated and `cli.run_app`
(which owns the room connection) was never reached. `running` means
`cli.run_app(WorkerOptions(entrypoint_fnc=entrypoint, token=token))` was
invoked with the built token. -/
inductive StartupOutcome
  | configError (msg : String)
  | running (tok : AccessToken)
deriving DecidableEq, Repr

/-- The `__main__` block: read the two environment variables, raise
`ValueError` if either is falsy (`if not api_key or not api_secret`),
otherwise build the token and hand it to `cli.run_app`. -/
def startupMain (api_key api_secret : Option String) : StartupOutcome :=
  if !(truthy api_key) || !(truthy api_secret) then
    StartupOutcome.configError credentialsError
  else
    StartupOutcome.running (token (api_key.getD "") (api_secret.getD ""))

/-! ## Conversation-state invariant -/

/-- The message with role "system" is present exactly once and first. -/
def systemFirstOnce (messages : List ChatMessage) : Bool :=
  match messages with
  | [] => false
  | first :: rest => first.role == "system" && rest.all (fun m => !(m.role == "system"))

/-! ## Helper lemmas -/

/-- Appending a non-system message preserves the system-first-once shape. -/
theorem systemFirstOnce_append (l : List ChatMessage) (m : ChatMessage)
    (hl : systemFirstOnce l = true) (hm : (m.role == "system") = false) :
    systemFirstOnce (l ++ [m]) = true := by
  cases l with
  | nil => simp [systemFirstOnce] at hl
  | cons a t =>
    simp only [systemFirstOnce, Bool.and_eq_true] at hl
    simp only [List.cons_append, systemFirstOnce, List.all_append, Bool.and_eq_true]
    exact ⟨hl.1, hl.2, by simp [hm]⟩

/-- When a participant has no publication passing the video check, the scan
step leaves the future untouched. -/
theorem set_result_scan_skip (st : FutureState) (p : RemoteParticipant)
    (h : p.track_publications.all (fun pub => !(isRemoteVideoTrack pub)) = true) :
    set_result_scan st p = Except.ok st := by
  have hfind : p.track_publications.find? isRemoteVideoTrack = none := by
    rw [List.find?_eq_none]
    intro x hx
    have := (List.all_eq_true.mp h) x hx
    simp only [Bool.not_eq_true'] at this
    simp [this]
  simp [set_result_scan, hfind]

/-- With no video publication anywhere, the whole scan leaves the future
pending. -/
theorem foldlM_pending_of_noVideo (ps : List RemoteParticipant)
    (h : ∀ p ∈ ps, p.track_publications.all (fun pub => !(isRemoteVideoTrack pub)) = true) :
    ps.foldlM set_result_scan FutureState.pending = Except.ok FutureState.pending := by
  induction ps with
  | nil => rfl
  | cons p ps ih =>
    rw [List.foldlM_cons, set_result_scan_skip _ _ (h p (by simp))]
    exact ih (fun q hq => h q (by simp [hq]))

/-- If no remote participant has an available video track at scan time,
`get_video_track` never resolves. -/
theorem get_video_track_pending (room : Room) (h : noVideoTrack room = true) :
    get_video_track room = GetVideoTrackResult.neverResolves := by
  unfold get_video_track
  rw [foldlM_pending_of_noVideo _ (List.all_eq_true.mp h)]

/-! ## Claim theorems -/

/-- C1 (amended): a chat-message-received event with text T issues exactly
one `respond(T, use_image=false)` invocation iff T is non-empty; only the
empty text issues none. A whitespace-only text is non-empty in the truthy
check and therefore does trigger a respond invocation. -/
theorem C1_chat_trigger (T : String) :
    (T ≠ "" → on_message_received T = [{ text := T, use_image := false }]) ∧
    (T = "" → on_message_received T = []) := by
  constructor
  · intro h; simp [on_message_received, h]
  · intro h; simp [on_message_received, h]

/-- C1 counterexample: the whitespace-only text " " is truthy, so
`on_message_received` issues a respond invocation for it, contradicting the
claim that whitespace-only texts issue none. -/
theorem C1_whitespace_cex :
    on_message_received " " = [{ text := " ", use_image := false }] ∧
    on_message_received " " ≠ [] := by decide

/-- C1 witness: instances at the non-empty text "ciao" and at the empty text. -/
theorem C1_chat_trigger_witness :
    on_message_received "ciao" = [{ text := "ciao", use_image := false }] ∧
    on_message_received "" = [] :=
  ⟨(C1_chat_trigger "ciao").1 (by decide), (C1_chat_trigger "").2 rfl⟩

/-- C2: an empty function-call batch issues no respond; for a non-empty
batch, a present non-empty `user_msg` in the first call issues exactly one
`respond(user_msg, use_image=true)`; a missing or empty `user_msg` issues
none (and no error is surfaced, the handler being total); and the calls
after the first never influence the result. -/
theorem C2_function_calls (first : CalledFunction) (rest : List CalledFunction) :
    on_function_calls_finished [] = [] ∧
    (∀ m, dictGet first.call_info.arguments "user_msg" = some m → m ≠ "" →
      on_function_calls_finished (first :: rest) = [{ text := m, use_image := true }]) ∧
    (dictGet first.call_info.arguments "user_msg" = none →
      on_function_calls_finished (first :: rest) = []) ∧
    (dictGet first.call_info.arguments "user_msg" = some "" →
      on_function_calls_finished (first :: rest) = []) ∧
    (∀ rest2, on_function_calls_finished (first :: rest) =
      on_function_calls_finished (first :: rest2)) := by
  refine ⟨rfl, ?_, ?_, ?_, ?_⟩
  · intro m hm hne; simp [on_function_calls_finished, hm, hne]
  · intro hm; simp [on_function_calls_finished, hm]
  · intro hm; simp [on_function_calls_finished, hm]
  · intro rest2; simp [on_function_calls_finished]

/-- C2 witness: a batch of two calls whose first carries `user_msg`, and a
single-call batch whose arguments lack `user_msg`. -/
theorem C2_function_calls_witness :
    on_function_calls_finished
        [⟨⟨[("user_msg", "descrivi")]⟩⟩, ⟨⟨[("user_msg", "altro")]⟩⟩] =
      [{ text := "descrivi", use_image := true }] ∧
    on_function_calls_finished [⟨⟨[]⟩⟩] = [] :=
  ⟨(C2_function_calls ⟨⟨[("user_msg", "descrivi")]⟩⟩ [⟨⟨[("user_msg", "altro")]⟩⟩]).2.1
      "descrivi" (by decide) (by decide),
   (C2_function_calls ⟨⟨[]⟩⟩ []).2.2.1 rfl⟩

/-- C3: every `_answer(text, use_image)` invocation appends exactly one
user-role message to the conversation state before `gpt.chat` is called,
with content `[text]` followed by one image item exactly when `use_image`
holds and the latest-frame slot is non-absent. -/
theorem C3_append_before_chat (text : String) (use_image : Bool)
    (latest_image : Option VideoFrame) (ctx : ChatContext) (outcome : CallOutcome) :
    (_answer text use_image latest_image ctx outcome).chatCallInput.messages =
      ctx.messages ++
        [{ role := "user",
           content := ContentItem.text text ::
             (if use_image then
               (latest_image.map (fun f => ContentItem.image { image := f })).toList
              else []) }] := by
  cases use_image <;> cases latest_image <;> simp [_answer, answerContent]

/-- C4: `_answer` with `use_image=true` and an absent latest-frame slot
appends a text-only user message (no image item), and nothing escapes the
invocation when the external calls succeed; the content construction
itself is total, so the absent slot raises no error. -/
theorem C4_absent_slot_text_only (text : String) (ctx : ChatContext) (outcome : CallOutcome) :
    (_answer text true none ctx outcome).chatCallInput.messages =
      ctx.messages ++ [{ role := "user", content := [ContentItem.text text] }] ∧
    (_answer text true none ctx CallOutcome.ok).raised = false := by
  exact ⟨by simp [_answer, answerContent], rfl⟩

/-- C5 counterexample: in a connected room whose only remote participant has
no available video track at scan time, the scan completes without calling
`set_result`, nothing else ever completes the future, and the await
suspends forever — the loop does not resolve when a participant publishes
a video track after the resolution call starts, contrary to the claim. -/
theorem C5_no_late_resolution_cex :
    get_video_track
        { remote_participants := [{ track_publications := [] }],
          connection_state := ConnectionState.connConnected } =
      GetVideoTrackResult.neverResolves ∧
    mediaLoop none
        [({ remote_participants := [{ track_publications := [] }],
            connection_state := ConnectionState.connConnected }, [])] =
      (LoopOutcome.suspended, none) := by decide

/-- C5 (amended): while connected, the outer loop repeatedly awaits
`get_video_track` — a single scan of the room snapshot at call time — and,
when it resolves, consumes that track's frame sequence into the
latest-frame slot and loops back to resolve again; when no remote
participant has an available video track at scan time, the await suspends
forever (later publications never resolve it); when the connection state
is not connected the loop exits. -/
theorem C5_media_loop (room : Room) (frames : List VideoFrame)
    (rest : List (Room × List VideoFrame)) (latest : Option VideoFrame) :
    (room.connection_state ≠ ConnectionState.connConnected →
      mediaLoop latest ((room, frames) :: rest) = (LoopOutcome.exited, latest)) ∧
    (room.connection_state = ConnectionState.connConnected → noVideoTrack room = true →
      mediaLoop latest ((room, frames) :: rest) = (LoopOutcome.suspended, latest)) ∧
    (∀ t, room.connection_state = ConnectionState.connConnected →
      get_video_track room = GetVideoTrackResult.resolved t →
      mediaLoop latest ((room, frames) :: rest) =
        mediaLoop (consumeFrames frames latest) rest) := by
  refine ⟨?_, ?_, ?_⟩
  · intro h
    simp [mediaLoop, h]
  · intro h hnv
    simp [mediaLoop, h, get_video_track_pending room hnv]
  · intro t h hres
    simp [mediaLoop, h, hres]

/-- C5 witness: the exit, suspend and consume-then-loop cases at concrete
rooms. -/
theorem C5_media_loop_witness :
    mediaLoop none
        [({ remote_participants := [],
            connection_state := ConnectionState.connDisconnected }, [])] =
      (LoopOutcome.exited, none) ∧
    mediaLoop none
        [({ remote_participants := [{ track_publications := [] }],
            connection_state := ConnectionState.connConnected }, [⟨3⟩])] =
      (LoopOutcome.suspended, none) ∧
    mediaLoop none
        [({ remote_participants :=
              [{ track_publications := [{ track := some { sid := "TR_V", kind := TrackKind.video } }] }],
            connection_state := ConnectionState.connConnected }, [⟨7⟩])] =
      mediaLoop (consumeFrames [⟨7⟩] none) [] :=
  ⟨(C5_media_loop
      { remote_participants := [], connection_state := ConnectionState.connDisconnected }
      [] [] none).1 (by decide),
   (C5_media_loop
      { remote_participants := [{ track_publications := [] }],
        connection_state := ConnectionState.connConnected }
      [⟨3⟩] [] none).2.1 rfl (by decide),
   (C5_media_loop
      { remote_participants :=
          [{ track_publications := [{ track := some { sid := "TR_V", kind := TrackKind.video } }] }],
        connection_state := ConnectionState.connConnected }
      [⟨7⟩] [] none).2.2 { sid := "TR_V", kind := TrackKind.video } rfl (by decide)⟩

/-- C6 (code bug): with a single video-publishing participant the scan does
return its first available video track, but with two remote participants
that each have one, the `break` leaves only the inner loop, `set_result`
is invoked a second time on the already-done future, and
`asyncio.InvalidStateError` propagates out of `get_video_track` instead of
the first video track being returned. -/
theorem C6_two_video_participants_raise :
    get_video_track
        { remote_participants :=
            [{ track_publications := [{ track := some { sid := "TR_A", kind := TrackKind.video } }] }],
          connection_state := ConnectionState.connConnected } =
      GetVideoTrackResult.resolved { sid := "TR_A", kind := TrackKind.video } ∧
    get_video_track
        { remote_participants :=
            [{ track_publications := [{ track := some { sid := "TR_A", kind := TrackKind.video } }] },
             { track_publications := [{ track := some { sid := "TR_B", kind := TrackKind.video } }] }],
          connection_state := ConnectionState.connConnected } =
      GetVideoTrackResult.invalidStateError := by decide

/-- C7 counterexample: the identity embedded in the startup token is
"python-bot", not "bot". -/
theorem C7_identity_cex :
    (token "chiave" "segreto").identity = "python-bot" ∧
    (token "chiave" "segreto").identity ≠ "bot" := by decide

/-- C7 (amended): the access token produced at startup embeds identity
"python-bot", display name "Python Bot", and a room-join grant
(`room_join=true`) scoped to the fixed room name "my-room". -/
theorem C7_token_shape (api_key api_secret : String) :
    (token api_key api_secret).identity = "python-bot" ∧
    (token api_key api_secret).name = "Python Bot" ∧
    (token api_key api_secret).grants.room_join = true ∧
    (token api_key api_secret).grants.room = "my-room" :=
  ⟨rfl, rfl, rfl, rfl⟩

/-- C8: if either credential environment variable is missing or empty, the
`__main__` block ends in the configuration error — so no token is built
and `cli.run_app` (which owns the room connection) is never reached; with
both present and non-empty, no such error occurs and the built token is
handed to `cli.run_app`. -/
theorem C8_credential_check (api_key api_secret : Option String) :
    ((api_key = none ∨ api_key = some "" ∨ api_secret = none ∨ api_secret = some "") →
      startupMain api_key api_secret = StartupOutcome.configError credentialsError) ∧
    (∀ k s, api_key = some k → k ≠ "" → api_secret = some s → s ≠ "" →
      startupMain api_key api_secret = StartupOutcome.running (token k s)) := by
  constructor
  · rintro (rfl | rfl | rfl | rfl) <;> simp [startupMain, truthy]
  · rintro k s rfl hk rfl hs
    simp [startupMain, truthy, hk, hs]

/-- C8 witness: a missing key aborts with the configuration error; a
present, non-empty pair reaches `cli.run_app` with the built token. -/
theorem C8_credential_check_witness :
    startupMain none (some "segreto") = StartupOutcome.configError credentialsError ∧
    startupMain (some "chiave") (some "segreto") =
      StartupOutcome.running (token "chiave" "segreto") :=
  ⟨(C8_credential_check none (some "segreto")).1 (Or.inl rfl),
   (C8_credential_check (some "chiave") (some "segreto")).2 "chiave" "segreto"
      rfl (by decide) rfl (by decide)⟩

/-- C9: the initial conversation state has the system message exactly once
and first, and every `_answer` invocation only appends (new state = old
state followed by one user-role message), preserving the invariant. -/
theorem C9_system_invariant :
    systemFirstOnce chat_context.messages = true ∧
    (∀ text use_image latest_image ctx outcome,
      systemFirstOnce ctx.messages = true →
      (_answer text use_image latest_image ctx outcome).finalCtx.messages =
        ctx.messages ++
          [{ role := "user", content := answerContent text use_image latest_image }] ∧
      systemFirstOnce
        (_answer text use_image latest_image ctx outcome).finalCtx.messages = true) := by
  refine ⟨rfl, ?_⟩
  intro text use_image latest_image ctx outcome h
  exact ⟨rfl, systemFirstOnce_append _ _ h rfl⟩

/-- C9 witness: the invariant after one `_answer` append on the initial
conversation state. -/
theorem C9_system_invariant_witness :
    (_answer "ciao" false none chat_context CallOutcome.ok).finalCtx.messages =
      chat_context.messages ++
        [{ role := "user", content := answerContent "ciao" false none }] ∧
    systemFirstOnce
      (_answer "ciao" false none chat_context CallOutcome.ok).finalCtx.messages = true :=
  C9_system_invariant.2 "ciao" false none chat_context CallOutcome.ok rfl

/-- C10: `_answer` is not atomic on error: when the model chat call or the
speech synthesis fails, the exception escapes `_answer`, yet the appended
user message stays in the conversation state, which therefore differs from
the state before the invocation. -/
theorem C10_no_rollback (text : String) (use_image : Bool)
    (latest_image : Option VideoFrame) (ctx : ChatContext) (outcome : CallOutcome)
    (h : outcome ≠ CallOutcome.ok) :
    (_answer text use_image latest_image ctx outcome).raised = true ∧
    (_answer text use_image latest_image ctx outcome).finalCtx.messages =
      ctx.messages ++
        [{ role := "user", content := answerContent text use_image latest_image }] ∧
    (_answer text use_image latest_image ctx outcome).finalCtx.messages ≠ ctx.messages := by
  refine ⟨?_, rfl, ?_⟩
  · cases outcome with
    | ok => exact absurd rfl h
    | chatError => rfl
    | sayError => rfl
  · intro hEq
    have hlen := congrArg List.length hEq
    simp [_answer] at hlen

/-- C10 witness: a failing chat call after the append leaves the appended
message in place. -/
theorem C10_no_rollback_witness :
    (_answer "ciao" false none chat_context CallOutcome.chatError).raised = true ∧
    (_answer "ciao" false none chat_context CallOutcome.chatError).finalCtx.messages =
      chat_context.messages ++
        [{ role := "user", content := answerContent "ciao" false none }] ∧
    (_answer "ciao" false none chat_context CallOutcome.chatError).finalCtx.messages ≠
      chat_context.messages :=
  C10_no_rollback "ciao" false none chat_context CallOutcome.chatError (by decide)

end Assistant
